import Mathlib

/-!
Shallow embedding of the session/transport management layer and capture broker
of the mcp-webcam repository (src/webcam-server-factory.ts, src/server.ts,
src/transport/base-transport.ts, src/transport/streamable-http-transport.ts,
and the HTTP endpoint handlers of the index entry point).

JavaScript `Map` objects are modelled as insertion-ordered association lists
with string keys; `Set` objects as lists without duplicates maintained by the
add operation.  Timestamps (`Date.now()` milliseconds) are modelled as `Int`.
Side effects that the claims talk about (SSE writes, promise resolutions,
`close()` calls on transports and servers, issued pings) are recorded in
explicit event logs inside the state.
-/

/-- A JavaScript `Map` with string keys: an insertion-ordered association list. -/
abbrev JSMap (α : Type) := List (String × α)

/-- `Map.get`: value of the first (unique, for genuine JS maps) entry with the key. -/
def mapGet {α : Type} (m : JSMap α) (k : String) : Option α :=
  match m with
  | [] => none
  | (k', v) :: rest => if k' = k then some v else mapGet rest k

/-- `Map.set`: update the value in place if the key is present, else append at the end. -/
def mapSet {α : Type} (m : JSMap α) (k : String) (v : α) : JSMap α :=
  match m with
  | [] => [(k, v)]
  | (k', v') :: rest => if k' = k then (k, v) :: rest else (k', v') :: mapSet rest k v

/-- `Map.delete`: remove the entry with the key (all entries, which on
genuine JS maps with unique keys is the same thing). -/
def mapDelete {α : Type} (m : JSMap α) (k : String) : JSMap α :=
  match m with
  | [] => []
  | (k', v') :: rest => if k' = k then mapDelete rest k else (k', v') :: mapDelete rest k

/-- `Map.has`. -/
def mapHas {α : Type} (m : JSMap α) (k : String) : Bool :=
  (mapGet m k).isSome

/-- `Array.from(m.keys())`. -/
def mapKeys {α : Type} (m : JSMap α) : List String :=
  m.map Prod.fst

/-! ## Capture broker (src/webcam-server-factory.ts and the capture endpoints)

`clients` maps a user to a map from SSE client id to the client's response
stream (modelled as an abstract stream handle `Nat`).  `captureCallbacks` maps
a user to a map from client id to the pending one-shot resolver; a resolver is
modelled as the identifier (`Nat`) of the promise/future it would settle, and
calling it is modelled by appending the settlement to the `settled` log. -/

/-- The value a pending capture promise is settled with: the TS union
`string | { error: string }` of the resolver's argument. -/
inductive CaptureOutcome where
  | image (dataUrl : String)
  | failure (message : String)
deriving DecidableEq, Repr

/-- Webapp-side state: the module-level maps of src/webcam-server-factory.ts
plus event logs for SSE writes and promise settlements. -/
structure WebcamState where
  clients : JSMap (JSMap Nat)
  captureCallbacks : JSMap (JSMap Nat)
  writes : List (Nat × String)
  settled : List (Nat × CaptureOutcome)
deriving DecidableEq, Repr

/-- `getUserClients` (src/webcam-server-factory.ts:62-67): returns the user's
client bucket, inserting an empty bucket first when the user is absent. -/
def getUserClients (user : String) (st : WebcamState) : JSMap Nat × WebcamState :=
  match mapGet st.clients user with
  | some m => (m, st)
  | none => ([], { st with clients := mapSet st.clients user [] })

/-- `getUserCallbacks` (src/webcam-server-factory.ts:69-74). -/
def getUserCallbacks (user : String) (st : WebcamState) : JSMap Nat × WebcamState :=
  match mapGet st.captureCallbacks user with
  | some m => (m, st)
  | none => ([], { st with captureCallbacks := mapSet st.captureCallbacks user [] })

/-- The MCP tool result produced synchronously by a tool handler. -/
structure ToolResponse where
  isError : Bool
  text : String
deriving DecidableEq, Repr

/-- Synchronous outcome of running a capture/screenshot tool handler up to its
first suspension point: an immediate response, a thrown error, or a suspension
awaiting the browser capture (having registered resolver `futureId` for
`clientId` and written the SSE command). -/
inductive ToolStart where
  | returned (r : ToolResponse)
  | thrown (msg : String)
  | awaiting (clientId : String) (futureId : Nat)
deriving DecidableEq, Repr

/-- The SSE payload written for a capture command:
`data: ${JSON.stringify({type:"capture"})}\n\n`. -/
def captureSsePayload : String := "data: \x7b\"type\":\"capture\"\x7d\n\n"

/-- The SSE payload written for a screenshot command. -/
def screenshotSsePayload : String := "data: \x7b\"type\":\"screenshot\"\x7d\n\n"

/-- The instructional `isError` text of the capture tool when no browser client
is connected (src/webcam-server-factory.ts:178). -/
def captureNoClientsText (host user : String) : String :=
  "Have you opened your web browser?. Direct the human to go to " ++
    (host ++ ((if user = "default" then "" else "?user=" ++ user) ++
      ", switch on their webcam and try again."))

/-- The instructional `isError` text of the screenshot tool when no browser
client is connected (src/webcam-server-factory.ts:252); it always appends the
user query parameter. -/
def screenshotNoClientsText (host user : String) : String :=
  "Have you opened your web browser?. Direct the human to go to " ++
    (host ++ ("?user=" ++ (user ++ ", switch on their webcam and try again.")))

/-- Common shape of the capture and screenshot tool handlers
(src/webcam-server-factory.ts:170-202 and 244-276), run up to the first
suspension point: return the instructional error when the user has no
connected client; otherwise pick the first client key, register the resolver
in the user's callback bucket and write the SSE command to that client's
stream.  The JS falsy check `if (!clientId) throw` fires for the empty
string. -/
def webcamToolStart (eventPayload errText user : String) (futureId : Nat)
    (st : WebcamState) : ToolStart × WebcamState :=
  let r1 := getUserClients user st
  let userClients := r1.1
  let st1 := r1.2
  if userClients.isEmpty then
    (.returned { isError := true, text := errText }, st1)
  else
    let clientId := ((mapKeys userClients).head?).getD ""
    if clientId = "" then
      (.thrown "No clients connected", st1)
    else
      let r2 := getUserCallbacks user st1
      let userCallbacks := r2.1
      let st2 := r2.2
      let st3 := { st2 with
        captureCallbacks := mapSet st2.captureCallbacks user
          (mapSet userCallbacks clientId futureId) }
      let st4 :=
        match mapGet userClients clientId with
        | some h => { st3 with writes := st3.writes ++ [(h, eventPayload)] }
        | none => st3
      (.awaiting clientId futureId, st4)

/-- The `capture` tool handler up to its suspension point
(src/webcam-server-factory.ts:170-202). -/
def captureToolStart (host user : String) (futureId : Nat) (st : WebcamState) :
    ToolStart × WebcamState :=
  webcamToolStart captureSsePayload (captureNoClientsText host user) user futureId st

/-- The `screenshot` tool handler up to its suspension point
(src/webcam-server-factory.ts:244-276). -/
def screenshotToolStart (host user : String) (futureId : Nat) (st : WebcamState) :
    ToolStart × WebcamState :=
  webcamToolStart screenshotSsePayload (screenshotNoClientsText host user) user futureId st

/-- The resolver pending for a client id within a user bucket, if any. -/
def pendingFor (st : WebcamState) (user clientId : String) : Option Nat :=
  match mapGet st.captureCallbacks user with
  | none => none
  | some bucket => mapGet bucket clientId

/-- How an `/api/capture-result` or `/api/capture-error` request ends:
reaching `res.json({success:true})`, or throwing before it. -/
inductive EndpointResult where
  | ok
  | typeError
deriving DecidableEq, Repr

/-- The `POST /api/capture-result` handler as staged (part_010:146-156):
`captureCallbacks.get(clientId)` looks the posted client id up in the OUTER,
user-keyed map, whose values are whole per-user buckets — not in the per-user
bucket where the tool handlers register resolvers.  A miss skips the body and
answers `{success:true}`; a hit (the client id coinciding with a user key)
makes `callback(image)` call a Map value, which throws a TypeError before the
delete is reached.  In neither case is any bucket entry consulted, settled or
removed, so the state is returned unchanged. -/
def resolveCapture (clientId image : String) (st : WebcamState) :
    EndpointResult × WebcamState :=
  match mapGet st.captureCallbacks clientId with
  | none => (.ok, st)
  | some _ => (.typeError, st)

/-- `error.message || "Unknown error occurred"` of the capture-error handler:
JS `||` falls through on the falsy empty string and on a missing message.
(The handler builds this argument object, though the call it is passed to
never reaches a resolver — see `failCapture`.) -/
def errorMessageOrDefault : Option String → String
  | some s => if s = "" then "Unknown error occurred" else s
  | none => "Unknown error occurred"

/-- The `POST /api/capture-error` handler as staged (part_010:159-169): the
same outer-map lookup by client id as `resolveCapture`, with the structured
error argument built from `error.message`.  Like `resolveCapture` it never
reaches a registered resolver: a miss is a no-op, a hit throws a TypeError
calling a Map value, and the state is returned unchanged either way. -/
def failCapture (clientId : String) (message : Option String)
    (st : WebcamState) : EndpointResult × WebcamState :=
  match mapGet st.captureCallbacks clientId with
  | none => (.ok, st)
  | some _ => (.typeError, st)

/-! ## Stateful transport (src/transport/base-transport.ts,
src/transport/streamable-http-transport.ts)

Sessions are kept in a `Map` from session id to a session record.  The wire
transport handle and protocol server owned by a session are abstract; the
claims only observe the `close()` calls they receive, recorded in the
`transportCloses`/`serverCloses` logs (each element one call, named by the
session id).  `pingsIssued` records every protocol-level ping actually fired
by `pingSingleSession`. -/

/-- The metadata portion of a session record (interface SessionMetadata plus
the heartbeat interval handle of BaseSession, abstracted to a flag). -/
structure SessionMeta where
  lastActivity : Int
  pingFailures : Nat
  lastPingAttempt : Option Int
  heartbeatActive : Bool
deriving DecidableEq, Repr

/-- State of a `StatefulTransport` (concretely the streamable-HTTP one). -/
structure TransportState where
  sessions : JSMap SessionMeta
  isShuttingDown : Bool
  staleCheckActive : Bool
  pingActive : Bool
  pingsInFlight : List String
  transportCloses : List String
  serverCloses : List String
  pingsIssued : List String
deriving DecidableEq, Repr

/-- `Set.add`. -/
def setAdd (s : List String) (x : String) : List String :=
  if x ∈ s then s else s ++ [x]

/-- `updateSessionActivity` (base-transport.ts:108-113). -/
def updateSessionActivity (sid : String) (now : Int) (st : TransportState) :
    TransportState :=
  match mapGet st.sessions sid with
  | none => st
  | some s => { st with sessions := mapSet st.sessions sid ({ s with lastActivity := now }) }

/-- `stopHeartbeat` (base-transport.ts:326-332): clear the session's heartbeat
interval when it has one. -/
def stopHeartbeat (sid : String) (st : TransportState) : TransportState :=
  match mapGet st.sessions sid with
  | none => st
  | some s =>
    if s.heartbeatActive then
      { st with sessions := mapSet st.sessions sid ({ s with heartbeatActive := false }) }
    else st

/-- `cleanupSession` (base-transport.ts:357-388): no-op if the session id is
absent; otherwise stop the heartbeat, close the wire transport, close the
protocol server (each close attempted in its own try/catch, so both calls are
always made), and finally delete the registry entry. -/
def cleanupSession (sid : String) (st : TransportState) : TransportState :=
  match mapGet st.sessions sid with
  | none => st
  | some _ =>
    let st1 := stopHeartbeat sid st
    let st2 := { st1 with transportCloses := st1.transportCloses ++ [sid] }
    let st3 := { st2 with serverCloses := st2.serverCloses ++ [sid] }
    { st3 with sessions := mapDelete st3.sessions sid }

/-- `removeSession` (streamable-http-transport.ts:289-295): guard against
double removal, then run the shared cleanup. -/
def removeSession (sid : String) (st : TransportState) : TransportState :=
  if (mapGet st.sessions sid).isSome then cleanupSession sid st else st

/-- Body of the removal loop of the stale sweep (base-transport.ts:246-254):
re-check presence, then `removeStaleSession`, which for the streamable
transport runs `cleanupSession`. -/
def sweepRemove (acc : TransportState) (sid : String) : TransportState :=
  if (mapGet acc.sessions sid).isSome then cleanupSession sid acc else acc

/-- One tick of the stale-connection check interval
(base-transport.ts:230-258): nothing during shutdown; otherwise collect the
ids whose inactivity exceeds the stale timeout, then remove each one that is
still present. -/
def staleSweepTick (staleTimeout now : Int) (st : TransportState) : TransportState :=
  if st.isShuttingDown then st
  else
    let staleIds :=
      (st.sessions.filter (fun p => decide (now - p.2.lastActivity > staleTimeout))).map
        Prod.fst
    staleIds.foldl sweepRemove st

/-- `pingSingleSession` (base-transport.ts:158-191), synchronous part: skip
when the session is gone or a ping is already in flight for it; otherwise mark
the ping in flight, stamp `lastPingAttempt` and fire the ping (recorded in
`pingsIssued`). -/
def pingSingleSession (sid : String) (now : Int) (st : TransportState) :
    TransportState :=
  match mapGet st.sessions sid with
  | none => st
  | some s =>
    if sid ∈ st.pingsInFlight then st
    else
      { st with
        pingsInFlight := setAdd st.pingsInFlight sid,
        sessions := mapSet st.sessions sid ({ s with lastPingAttempt := some now }),
        pingsIssued := st.pingsIssued ++ [sid] }

/-- Completion of a ping fired by `pingSingleSession`
(base-transport.ts:172-190): on success refresh `lastActivity` and zero the
failure count, on failure increment it; in all cases remove the in-flight
marker (the `finally` branch). -/
def pingSettle (sid : String) (success : Bool) (now : Int) (st : TransportState) :
    TransportState :=
  let st1 :=
    if success then
      match mapGet st.sessions sid with
      | none => st
      | some s =>
        { st with sessions :=
            mapSet st.sessions sid ({ s with lastActivity := now, pingFailures := 0 }) }
    else
      match mapGet st.sessions sid with
      | none => st
      | some s =>
        { st with sessions :=
            mapSet st.sessions sid ({ s with pingFailures := s.pingFailures + 1 }) }
  { st1 with pingsInFlight := st1.pingsInFlight.filter (fun x => decide (x ≠ sid)) }

/-- One tick of the ping keep-alive interval (base-transport.ts:202-209):
nothing during shutdown, else ping every session. -/
def pingKeepAliveTick (now : Int) (st : TransportState) : TransportState :=
  if st.isShuttingDown then st
  else (mapKeys st.sessions).foldl (fun acc sid => pingSingleSession sid now acc) st

/-- `stopStaleConnectionCheck` (base-transport.ts:289-295): clear the stale
check interval if set, then `stopPingKeepAlive` (base-transport.ts:217-225),
which clears the in-flight set only when the ping interval was active. -/
def stopStaleConnectionCheck (st : TransportState) : TransportState :=
  let st1 := if st.staleCheckActive then { st with staleCheckActive := false } else st
  if st1.pingActive then { st1 with pingActive := false, pingsInFlight := [] } else st1

/-- `cleanupAllSessions` (base-transport.ts:393-404): run `cleanupSession` for
every session id of the registry snapshot (each wrapped in its own catch, and
the bulk operation awaits `Promise.allSettled` of them all), then clear the
registry. -/
def cleanupAllSessions (st : TransportState) : TransportState :=
  let st1 := (mapKeys st.sessions).foldl (fun acc sid => cleanupSession sid acc) st
  { st1 with sessions := [] }

/-- `cleanup` of the streamable-HTTP transport
(streamable-http-transport.ts:305-313). -/
def cleanup (st : TransportState) : TransportState :=
  cleanupAllSessions (stopStaleConnectionCheck st)

/-- `shutdown` (base-transport.ts:268-270). -/
def shutdown (st : TransportState) : TransportState :=
  { st with isShuttingDown := true }

/-- A fresh session record as registered by `createSession`'s
`onsessioninitialized` callback (streamable-http-transport.ts:241-258). -/
def freshSession (now : Int) : SessionMeta :=
  { lastActivity := now, pingFailures := 0, lastPingAttempt := none,
    heartbeatActive := false }

/-- Result of dispatching a POST to the `/mcp` endpoint. -/
inductive PostOutcome where
  | rejected (status : Nat) (message : String)
  | dispatched (sid : String)
  | newSession (sid : String)
deriving DecidableEq, Repr

/-- `handleRequest`/`handlePostRequest` of the streamable-HTTP transport
(streamable-http-transport.ts:58-158) for the POST verb: refresh activity for
a known session id, reject new connections with 503 during shutdown, dispatch
requests with a live session id to that session's wire transport, create a
session only for an initialize request without session id (the minted id is
the parameter `newSid`), reject other id-less requests with 400 and unknown
ids with 404. -/
def handlePostRequest (sessionId : Option String) (isInit : Bool) (newSid : String)
    (now : Int) (st : TransportState) : PostOutcome × TransportState :=
  let st0 :=
    match sessionId with
    | some sid => if mapHas st.sessions sid then updateSessionActivity sid now st else st
    | none => st
  match sessionId with
  | none =>
    if st0.isShuttingDown then
      (.rejected 503 "Server is shutting down", st0)
    else if isInit then
      (.newSession newSid,
        { st0 with sessions := mapSet st0.sessions newSid (freshSession now) })
    else
      (.rejected 400 "Missing session ID for non-initialization request", st0)
  | some sid =>
    if mapHas st0.sessions sid then (.dispatched sid, st0)
    else (.rejected 404 ("Session not found: " ++ sid), st0)

/-! ## Data URL parsing (src/webcam-server-factory.ts:21-30, src/server.ts:590-599)

`parseDataUrl` matches the JavaScript regular expression
`^data:([^;]+);base64,(.+)$` and throws `Invalid data URL format` when it does
not match.  Matching semantics: the first group is the (non-empty) run of
non-semicolon characters after `data:`, which therefore ends at the first
semicolon; the literal `;base64,` must follow; the second group `(.+)` is the
non-empty remainder, in which `.` matches every character except the
JavaScript line terminators. -/

/-- JavaScript regexp `.` (no dotAll flag): everything but a line terminator. -/
def isLineTerm (c : Char) : Bool :=
  c = '\n' || c = '\r' || c = '\u2028' || c = '\u2029'

/-- Match a literal prefix, returning the remainder. -/
def dropLit : List Char → List Char → Option (List Char)
  | [], s => some s
  | _ :: _, [] => none
  | p :: ps, c :: cs => if c = p then dropLit ps cs else none

/-- Split at the first semicolon: `(run of non-semicolons, rest)`. -/
def breakSemi : List Char → List Char × List Char
  | [] => ([], [])
  | c :: cs =>
    if c = ';' then ([], c :: cs)
    else
      let r := breakSemi cs
      (c :: r.1, r.2)

/-- `parseDataUrl` on the character list of the input, returning the two
capture groups or the thrown error message. -/
def parseDataUrlChars (s : List Char) : Except String (List Char × List Char) :=
  match dropLit "data:".toList s with
  | none => .error "Invalid data URL format"
  | some rest =>
    let mime := (breakSemi rest).1
    let rest2 := (breakSemi rest).2
    if mime = [] then .error "Invalid data URL format"
    else
      match dropLit ";base64,".toList rest2 with
      | none => .error "Invalid data URL format"
      | some payload =>
        if payload = [] then .error "Invalid data URL format"
        else if payload.all (fun c => !isLineTerm c) then .ok (mime, payload)
        else .error "Invalid data URL format"

/-- The record `parseDataUrl` returns on a successful match. -/
structure ParsedDataUrl where
  mimeType : String
  base64Data : String
deriving DecidableEq, Repr

/-- `parseDataUrl`: `Except.error` models the thrown `Error`. -/
def parseDataUrl (s : String) : Except String ParsedDataUrl :=
  match parseDataUrlChars s.data with
  | .ok r => .ok { mimeType := ⟨r.1⟩, base64Data := ⟨r.2⟩ }
  | .error e => .error e

/-- Encoding a mime type and base64 payload as
`data:<mime>;base64,<payload>`. -/
def encodeDataUrlChars (mime payload : List Char) : List Char :=
  "data:".toList ++ (mime ++ (";base64,".toList ++ payload))

/-- A character list matches the `data:<mime>;base64,<payload>` format of the
regular expression `^data:([^;]+);base64,(.+)$` under JavaScript matching
semantics. -/
def IsDataUrlFormat (s : List Char) : Prop :=
  ∃ mime payload, s = encodeDataUrlChars mime payload ∧ mime ≠ [] ∧
    ';' ∉ mime ∧ payload ≠ [] ∧ ∀ c ∈ payload, isLineTerm c = false

/-! ## Association-list map lemmas -/

theorem mapGet_mapSet_self {α : Type} (m : JSMap α) (k : String) (v : α) :
    mapGet (mapSet m k v) k = some v := by
  induction m with
  | nil => simp [mapSet, mapGet]
  | cons hd tl ih =>
    by_cases h : hd.1 = k
    · simp [mapSet, mapGet, h]
    · cases hd with
      | mk k' v' =>
        simp only at h
        simp [mapSet, mapGet, h, ih]

theorem mapGet_mapSet_ne {α : Type} (m : JSMap α) (k k' : String) (v : α)
    (h : k ≠ k') : mapGet (mapSet m k v) k' = mapGet m k' := by
  induction m with
  | nil => simp [mapSet, mapGet, h]
  | cons hd tl ih =>
    cases hd with
    | mk k0 v0 =>
      by_cases h0 : k0 = k
      · subst h0
        simp [mapSet, mapGet, h]
      · simp [mapSet, mapGet, h0, ih]

theorem mapGet_mapDelete_self {α : Type} (m : JSMap α) (k : String) :
    mapGet (mapDelete m k) k = none := by
  induction m with
  | nil => simp [mapDelete, mapGet]
  | cons hd tl ih =>
    cases hd with
    | mk k0 v0 =>
      by_cases h0 : k0 = k
      · simp [mapDelete, h0, ih]
      · simp [mapDelete, mapGet, h0, ih]

theorem mapGet_mapDelete_ne {α : Type} (m : JSMap α) (k k' : String)
    (h : k ≠ k') : mapGet (mapDelete m k) k' = mapGet m k' := by
  induction m with
  | nil => simp [mapDelete]
  | cons hd tl ih =>
    cases hd with
    | mk k0 v0 =>
      by_cases h0 : k0 = k
      · subst h0
        have : ¬ (k0 = k') := h
        simp [mapDelete, mapGet, this, ih]
      · simp [mapDelete, mapGet, h0, ih]

theorem mapGet_mem {α : Type} {m : JSMap α} {k : String} {v : α}
    (h : mapGet m k = some v) : (k, v) ∈ m := by
  induction m with
  | nil => simp [mapGet] at h
  | cons hd tl ih =>
    cases hd with
    | mk k0 v0 =>
      by_cases h0 : k0 = k
      · subst h0
        simp [mapGet] at h
        simp [h]
      · simp [mapGet, h0] at h
        exact List.mem_cons_of_mem _ (ih h)

theorem mapGet_of_mem_nodup {α : Type} {m : JSMap α} {k : String} {v : α}
    (hn : (mapKeys m).Nodup) (h : (k, v) ∈ m) : mapGet m k = some v := by
  induction m with
  | nil => simp at h
  | cons hd tl ih =>
    cases hd with
    | mk k0 v0 =>
      simp only [mapKeys, List.map_cons, List.nodup_cons] at hn
      rcases List.mem_cons.mp h with h1 | h1
      · cases h1
        simp [mapGet]
      · have hk0 : k0 ≠ k := by
          intro he
          subst he
          exact hn.1 (by simpa [mapKeys] using List.mem_map_of_mem Prod.fst h1)
        simp [mapGet, hk0]
        exact ih hn.2 h1

theorem mem_keys_of_get_isSome {α : Type} {m : JSMap α} {k : String}
    (h : (mapGet m k).isSome) : k ∈ mapKeys m := by
  cases hg : mapGet m k with
  | none => rw [hg] at h; simp at h
  | some v => exact by simpa [mapKeys] using List.mem_map_of_mem Prod.fst (mapGet_mem hg)

theorem mapKeys_mapSet_of_isSome {α : Type} {m : JSMap α} {k : String} (v : α)
    (h : (mapGet m k).isSome) : mapKeys (mapSet m k v) = mapKeys m := by
  induction m with
  | nil => simp [mapGet] at h
  | cons hd tl ih =>
    cases hd with
    | mk k0 v0 =>
      by_cases h0 : k0 = k
      · subst h0
        simp [mapSet, mapKeys]
      · simp only [mapGet, h0, if_false] at h
        simp [mapSet, mapKeys, h0] at ih ⊢
        exact ih h

/-! ## Claim theorems: capture broker -/

/-- C1 (refuted on the staged code): the capture-result and capture-error
handlers look the posted client id up in the outer, user-keyed map, so a
resolver registered by the capture tool under `getUserCallbacks(user)` is
never settled and never removed — the handlers leave the state entirely
unchanged for every input — and a client id that collides with a user key
makes the handler throw instead of being a silent no-op.  Evaluated at the
failing input: client `c1` of user `default`, resolver 1 registered by the
capture tool, then `POST /api/capture-result` for `c1`: the handler answers
success, the resolver is still pending, nothing was settled; posting the
colliding id `default` throws a TypeError. -/
theorem capture_result_never_settles_resolver :
    (∀ (clientId image : String) (message : Option String) (st : WebcamState),
      (resolveCapture clientId image st).2 = st ∧
      (failCapture clientId message st).2 = st) ∧
    (resolveCapture "c1" "data:image/jpeg;base64,AAA"
        (captureToolStart "http://localhost:3333" "default" 1
          ⟨[("default", [("c1", 7)])], [], [], []⟩).2).1 = .ok ∧
    pendingFor (resolveCapture "c1" "data:image/jpeg;base64,AAA"
        (captureToolStart "http://localhost:3333" "default" 1
          ⟨[("default", [("c1", 7)])], [], [], []⟩).2).2 "default" "c1" = some 1 ∧
    (resolveCapture "c1" "data:image/jpeg;base64,AAA"
        (captureToolStart "http://localhost:3333" "default" 1
          ⟨[("default", [("c1", 7)])], [], [], []⟩).2).2.settled = [] ∧
    (resolveCapture "default" "img"
        (captureToolStart "http://localhost:3333" "default" 1
          ⟨[("default", [("c1", 7)])], [], [], []⟩).2).1 = .typeError ∧
    (failCapture "c1" (some "denied")
        (captureToolStart "http://localhost:3333" "default" 1
          ⟨[("default", [("c1", 7)])], [], [], []⟩).2).2.settled = [] := by
  refine ⟨fun clientId image message st => ⟨?_, ?_⟩, ?_, ?_, ?_, ?_, ?_⟩
  · unfold resolveCapture
    cases mapGet st.captureCallbacks clientId <;> rfl
  · unfold failCapture
    cases mapGet st.captureCallbacks clientId <;> rfl
  · decide
  · decide
  · decide
  · decide
  · decide

/-- C2 (code evaluated at the failing input): with one connected browser
client `c1`, a first capture tool call registers resolver 1; a second capture
tool call for the same client id before the first resolves silently replaces
it with resolver 2, and resolver 1 is gone without ever being settled — the
second `userCallbacks.set(clientId, resolve)` overwrites the first. -/
theorem second_capture_overwrites_pending_resolver :
    pendingFor (captureToolStart "http://localhost:3333" "default" 1
        ⟨[("default", [("c1", 7)])], [], [], []⟩).2 "default" "c1" = some 1 ∧
    pendingFor (captureToolStart "http://localhost:3333" "default" 2
        (captureToolStart "http://localhost:3333" "default" 1
          ⟨[("default", [("c1", 7)])], [], [], []⟩).2).2 "default" "c1" = some 2 ∧
    (captureToolStart "http://localhost:3333" "default" 2
        (captureToolStart "http://localhost:3333" "default" 1
          ⟨[("default", [("c1", 7)])], [], [], []⟩).2).2.settled = [] := by
  refine ⟨?_, ?_, ?_⟩ <;> rfl

/-- C3: invoking the capture or screenshot tool for a user with zero connected
browser clients returns an `isError` response whose text contains the UI URL,
does not throw, and leaves the capture-callbacks table (and the SSE write log)
unchanged. -/
theorem zero_clients_tool_policy (host user : String) (futureId : Nat)
    (st : WebcamState) (h : (mapGet st.clients user).getD [] = []) :
    (captureToolStart host user futureId st).1
        = .returned { isError := true, text := captureNoClientsText host user } ∧
    (captureToolStart host user futureId st).2.captureCallbacks = st.captureCallbacks ∧
    (captureToolStart host user futureId st).2.writes = st.writes ∧
    (screenshotToolStart host user futureId st).1
        = .returned { isError := true, text := screenshotNoClientsText host user } ∧
    (screenshotToolStart host user futureId st).2.captureCallbacks = st.captureCallbacks ∧
    (screenshotToolStart host user futureId st).2.writes = st.writes ∧
    (∃ pre suf, captureNoClientsText host user = pre ++ (host ++ suf)) ∧
    (∃ pre suf, screenshotNoClientsText host user = pre ++ (host ++ suf)) := by
  have hurl1 : ∃ pre suf, captureNoClientsText host user = pre ++ (host ++ suf) :=
    ⟨"Have you opened your web browser?. Direct the human to go to ", _, rfl⟩
  have hurl2 : ∃ pre suf, screenshotNoClientsText host user = pre ++ (host ++ suf) :=
    ⟨"Have you opened your web browser?. Direct the human to go to ", _, rfl⟩
  cases hc : mapGet st.clients user with
  | none =>
    refine ⟨?_, ?_, ?_, ?_, ?_, ?_, hurl1, hurl2⟩ <;>
      simp [captureToolStart, screenshotToolStart, webcamToolStart, getUserClients, hc]
  | some bucket =>
    rw [hc] at h
    simp only [Option.getD] at h
    subst h
    refine ⟨?_, ?_, ?_, ?_, ?_, ?_, hurl1, hurl2⟩ <;>
      simp [captureToolStart, screenshotToolStart, webcamToolStart, getUserClients, hc]

/-- Witness for C3 at a state whose `u1` bucket is absent. -/
theorem zero_clients_tool_policy_witness :
    (captureToolStart "http://localhost:3333" "u1" 5 ⟨[], [], [], []⟩).1
        = .returned ⟨true, captureNoClientsText "http://localhost:3333" "u1"⟩ ∧
    (captureToolStart "http://localhost:3333" "u1" 5 ⟨[], [], [], []⟩).2.captureCallbacks
        = WebcamState.captureCallbacks ⟨[], [], [], []⟩ ∧
    (captureToolStart "http://localhost:3333" "u1" 5
        ⟨[], [], [], []⟩).2.writes = WebcamState.writes ⟨[], [], [], []⟩ ∧
    (screenshotToolStart "http://localhost:3333" "u1" 5 ⟨[], [], [], []⟩).1
        = .returned ⟨true, screenshotNoClientsText "http://localhost:3333" "u1"⟩ ∧
    (screenshotToolStart "http://localhost:3333" "u1" 5
        ⟨[], [], [], []⟩).2.captureCallbacks = WebcamState.captureCallbacks ⟨[], [], [], []⟩ ∧
    (screenshotToolStart "http://localhost:3333" "u1" 5
        ⟨[], [], [], []⟩).2.writes = WebcamState.writes ⟨[], [], [], []⟩ ∧
    (∃ pre suf, captureNoClientsText "http://localhost:3333" "u1"
        = pre ++ ("http://localhost:3333" ++ suf)) ∧
    (∃ pre suf, screenshotNoClientsText "http://localhost:3333" "u1"
        = pre ++ ("http://localhost:3333" ++ suf)) :=
  zero_clients_tool_policy "http://localhost:3333" "u1" 5 ⟨[], [], [], []⟩ (by decide)

/-- C10: when at least one browser client is connected for the user (first map
entry `(c, h0)`, with `c` non-empty as generated ids are), the capture and
screenshot tool handlers write the command to exactly that first client's
stream — the write log grows by the single entry for handle `h0` — and suspend
awaiting that client. -/
theorem command_sent_to_first_client (host user c : String) (h0 : Nat)
    (rest : JSMap Nat) (futureId : Nat) (st : WebcamState)
    (hc : mapGet st.clients user = some ((c, h0) :: rest)) (hne : c ≠ "") :
    (captureToolStart host user futureId st).1 = .awaiting c futureId ∧
    (captureToolStart host user futureId st).2.writes
        = st.writes ++ [(h0, captureSsePayload)] ∧
    (screenshotToolStart host user futureId st).1 = .awaiting c futureId ∧
    (screenshotToolStart host user futureId st).2.writes
        = st.writes ++ [(h0, screenshotSsePayload)] := by
  cases hcb : mapGet st.captureCallbacks user with
  | none =>
    refine ⟨?_, ?_, ?_, ?_⟩ <;>
      simp [captureToolStart, screenshotToolStart, webcamToolStart, getUserClients,
        getUserCallbacks, hc, hcb, mapKeys, mapGet, hne]
  | some cbs =>
    refine ⟨?_, ?_, ?_, ?_⟩ <;>
      simp [captureToolStart, screenshotToolStart, webcamToolStart, getUserClients,
        getUserCallbacks, hc, hcb, mapKeys, mapGet, hne]

/-- Witness for C10 with two connected clients: only the first one receives
the command. -/
theorem command_sent_to_first_client_witness :
    (captureToolStart "http://localhost:3333" "default" 9
        ⟨[("default", [("c1", 7), ("c2", 8)])], [], [], []⟩).1 = .awaiting "c1" 9 ∧
    (captureToolStart "http://localhost:3333" "default" 9
        ⟨[("default", [("c1", 7), ("c2", 8)])], [], [], []⟩).2.writes
        = WebcamState.writes ⟨[("default", [("c1", 7), ("c2", 8)])], [], [], []⟩
            ++ [(7, captureSsePayload)] ∧
    (screenshotToolStart "http://localhost:3333" "default" 9
        ⟨[("default", [("c1", 7), ("c2", 8)])], [], [], []⟩).1 = .awaiting "c1" 9 ∧
    (screenshotToolStart "http://localhost:3333" "default" 9
        ⟨[("default", [("c1", 7), ("c2", 8)])], [], [], []⟩).2.writes
        = WebcamState.writes ⟨[("default", [("c1", 7), ("c2", 8)])], [], [], []⟩
            ++ [(7, screenshotSsePayload)] :=
  command_sent_to_first_client "http://localhost:3333" "default" "c1" 7 [("c2", 8)] 9
    ⟨[("default", [("c1", 7), ("c2", 8)])], [], [], []⟩ (by decide) (by decide)

/-! ## Transport helper lemmas -/

theorem stopHeartbeat_closes (sid : String) (st : TransportState) :
    (stopHeartbeat sid st).transportCloses = st.transportCloses ∧
    (stopHeartbeat sid st).serverCloses = st.serverCloses := by
  unfold stopHeartbeat
  cases mapGet st.sessions sid with
  | none => exact ⟨rfl, rfl⟩
  | some s => by_cases hb : s.heartbeatActive <;> simp [hb]

theorem stopHeartbeat_get_ne (sid k : String) (st : TransportState) (h : sid ≠ k) :
    mapGet (stopHeartbeat sid st).sessions k = mapGet st.sessions k := by
  unfold stopHeartbeat
  cases mapGet st.sessions sid with
  | none => rfl
  | some s =>
    by_cases hb : s.heartbeatActive
    · simp [hb, mapGet_mapSet_ne _ _ _ _ h]
    · simp [hb]

theorem cleanupSession_absent {sid : String} {st : TransportState}
    (h : mapGet st.sessions sid = none) : cleanupSession sid st = st := by
  unfold cleanupSession
  rw [h]

theorem cleanupSession_get_self (sid : String) (st : TransportState) :
    mapGet (cleanupSession sid st).sessions sid = none := by
  unfold cleanupSession
  cases h : mapGet st.sessions sid with
  | none => exact h
  | some s => simp [mapGet_mapDelete_self]

theorem cleanupSession_get_ne (sid k : String) (st : TransportState) (h : sid ≠ k) :
    mapGet (cleanupSession sid st).sessions k = mapGet st.sessions k := by
  unfold cleanupSession
  cases hg : mapGet st.sessions sid with
  | none => rfl
  | some s => simp [mapGet_mapDelete_ne _ _ _ h, stopHeartbeat_get_ne sid k st h]

theorem cleanupSession_transportCloses (sid : String) (st : TransportState) :
    (cleanupSession sid st).transportCloses =
      if (mapGet st.sessions sid).isSome then st.transportCloses ++ [sid]
      else st.transportCloses := by
  unfold cleanupSession
  cases hg : mapGet st.sessions sid with
  | none => simp
  | some s => simp [(stopHeartbeat_closes sid st).1]

theorem cleanupSession_serverCloses (sid : String) (st : TransportState) :
    (cleanupSession sid st).serverCloses =
      if (mapGet st.sessions sid).isSome then st.serverCloses ++ [sid]
      else st.serverCloses := by
  unfold cleanupSession
  cases hg : mapGet st.sessions sid with
  | none => simp
  | some s => simp [(stopHeartbeat_closes sid st).2]

theorem count_append_singleton_ne {a k : String} (l : List String) (h : k ≠ a) :
    (l ++ [k]).count a = l.count a := by
  simp [List.count_append, List.count_singleton', h]

theorem count_append_singleton_self (a : String) (l : List String) :
    (l ++ [a]).count a = l.count a + 1 := by
  simp [List.count_append]

theorem sweepRemove_get_self (acc : TransportState) (sid : String) :
    mapGet (sweepRemove acc sid).sessions sid = none := by
  unfold sweepRemove
  by_cases hg : (mapGet acc.sessions sid).isSome
  · simp [hg, cleanupSession_get_self]
  · simp [hg]
    exact Option.not_isSome_iff_eq_none.mp hg

theorem sweepRemove_get_ne (acc : TransportState) (k sid : String) (h : k ≠ sid) :
    mapGet (sweepRemove acc k).sessions sid = mapGet acc.sessions sid := by
  unfold sweepRemove
  by_cases hg : (mapGet acc.sessions k).isSome
  · simp [hg, cleanupSession_get_ne _ _ _ h]
  · simp [hg]

theorem foldSweep_get_notmem (l : List String) (sid : String) (st : TransportState)
    (h : sid ∉ l) :
    mapGet (l.foldl sweepRemove st).sessions sid = mapGet st.sessions sid := by
  induction l generalizing st with
  | nil => rfl
  | cons a l ih =>
    have ha : a ≠ sid := fun he => h (he ▸ List.mem_cons_self a l)
    simp only [List.foldl_cons]
    rw [ih _ (fun hm => h (List.mem_cons_of_mem _ hm))]
    exact sweepRemove_get_ne st a sid ha

theorem foldSweep_get_none (l : List String) (sid : String) (st : TransportState)
    (h : mapGet st.sessions sid = none) :
    mapGet (l.foldl sweepRemove st).sessions sid = none := by
  induction l generalizing st with
  | nil => exact h
  | cons a l ih =>
    simp only [List.foldl_cons]
    apply ih
    by_cases ha : a = sid
    · subst ha
      unfold sweepRemove
      simp [h]
    · rw [sweepRemove_get_ne st a sid ha]
      exact h

theorem foldSweep_get_mem (l : List String) (sid : String) (st : TransportState)
    (h : sid ∈ l) :
    mapGet (l.foldl sweepRemove st).sessions sid = none := by
  induction l generalizing st with
  | nil => simp at h
  | cons a l ih =>
    simp only [List.foldl_cons]
    by_cases ha : a = sid
    · subst ha
      exact foldSweep_get_none l a (sweepRemove st a) (sweepRemove_get_self st a)
    · rcases List.mem_cons.mp h with h1 | h1
      · exact absurd h1.symm ha
      · exact ih (sweepRemove st a) h1

theorem staleSweepTick_keeps (staleTimeout now : Int) (st : TransportState)
    (sid : String) (s : SessionMeta)
    (hn : (mapKeys st.sessions).Nodup) (hshut : st.isShuttingDown = false)
    (hget : mapGet st.sessions sid = some s)
    (hfresh : now - s.lastActivity ≤ staleTimeout) :
    mapGet (staleSweepTick staleTimeout now st).sessions sid = some s := by
  unfold staleSweepTick
  rw [hshut]
  simp only [Bool.false_eq_true, if_false]
  have hnot : sid ∉ (st.sessions.filter
      (fun p => decide (now - p.2.lastActivity > staleTimeout))).map Prod.fst := by
    intro hmem
    rcases List.mem_map.mp hmem with ⟨p, hp, hfst⟩
    rcases List.mem_filter.mp hp with ⟨hpm, hpc⟩
    have hpc' : now - p.2.lastActivity > staleTimeout := of_decide_eq_true hpc
    have : mapGet st.sessions p.1 = some p.2 :=
      mapGet_of_mem_nodup hn (by rw [show (p.1, p.2) = p from rfl]; exact hpm)
    rw [hfst, hget] at this
    have hps : p.2 = s := by
      injection this with hv
      exact hv.symm
    rw [hps] at hpc'
    exact absurd hfresh (not_le.mpr hpc')
  rw [foldSweep_get_notmem _ _ _ hnot]
  exact hget

theorem staleSweepTick_removes (staleTimeout now : Int) (st : TransportState)
    (sid : String) (s : SessionMeta)
    (hshut : st.isShuttingDown = false)
    (hget : mapGet st.sessions sid = some s)
    (hstale : now - s.lastActivity > staleTimeout) :
    mapGet (staleSweepTick staleTimeout now st).sessions sid = none := by
  unfold staleSweepTick
  rw [hshut]
  simp only [Bool.false_eq_true, if_false]
  have hmem : sid ∈ (st.sessions.filter
      (fun p => decide (now - p.2.lastActivity > staleTimeout))).map Prod.fst := by
    apply List.mem_map.mpr
    refine ⟨(sid, s), List.mem_filter.mpr ⟨mapGet_mem hget, decide_eq_true hstale⟩, rfl⟩
  exact foldSweep_get_mem _ _ _ hmem

/-! ## Claim theorems: liveness and session lifecycle -/

/-- C4: a stale-sweep tick (of a running transport, modelled with the JS-map
invariant of unique session keys) never removes a session whose inactivity is
within the stale timeout; it removes any session whose inactivity exceeds the
timeout; and if a ping succeeded in between at time `now'`, refreshing
`last_activity` to `now'` so that the session is no longer stale at tick time,
the session survives the tick. -/
theorem stale_sweep_policy (staleTimeout now : Int) (st : TransportState)
    (sid : String) (s : SessionMeta)
    (hn : (mapKeys st.sessions).Nodup) (hshut : st.isShuttingDown = false)
    (hget : mapGet st.sessions sid = some s) :
    (now - s.lastActivity ≤ staleTimeout →
      mapGet (staleSweepTick staleTimeout now st).sessions sid = some s) ∧
    (now - s.lastActivity > staleTimeout →
      mapGet (staleSweepTick staleTimeout now st).sessions sid = none) ∧
    (∀ now' : Int, now - now' ≤ staleTimeout →
      mapGet (staleSweepTick staleTimeout now (pingSettle sid true now' st)).sessions sid
        = some { s with lastActivity := now', pingFailures := 0 }) := by
  refine ⟨fun hfresh => staleSweepTick_keeps staleTimeout now st sid s hn hshut hget hfresh,
    fun hstale => staleSweepTick_removes staleTimeout now st sid s hshut hget hstale,
    fun now' hfresh => ?_⟩
  have hsess : (pingSettle sid true now' st).sessions
      = mapSet st.sessions sid ({ s with lastActivity := now', pingFailures := 0 }) := by
    simp [pingSettle, hget]
  have hflag : (pingSettle sid true now' st).isShuttingDown = st.isShuttingDown := by
    simp [pingSettle, hget]
  apply staleSweepTick_keeps
  · rw [hsess, mapKeys_mapSet_of_isSome _ (by rw [hget]; rfl)]
    exact hn
  · rw [hflag]
    exact hshut
  · rw [hsess]
    exact mapGet_mapSet_self _ _ _
  · exact hfresh

/-- Witness for C4: at tick time 100000 with timeout 50000, session `s1`
(active at 60000) survives, session `s2` (active at 10000) is removed, and
`s2` survives after a successful ping refreshed it to 99000. -/
theorem stale_sweep_policy_witness :
    mapGet (staleSweepTick 50000 100000
        ⟨[("s1", ⟨60000, 0, none, false⟩), ("s2", ⟨10000, 2, none, false⟩)],
          false, true, true, [], [], [], []⟩).sessions "s1" = some ⟨60000, 0, none, false⟩ ∧
    mapGet (staleSweepTick 50000 100000
        ⟨[("s1", ⟨60000, 0, none, false⟩), ("s2", ⟨10000, 2, none, false⟩)],
          false, true, true, [], [], [], []⟩).sessions "s2" = none ∧
    mapGet (staleSweepTick 50000 100000 (pingSettle "s2" true 99000
        ⟨[("s1", ⟨60000, 0, none, false⟩), ("s2", ⟨10000, 2, none, false⟩)],
          false, true, true, [], [], [], []⟩)).sessions "s2"
      = some ⟨99000, 0, none, false⟩ :=
  ⟨(stale_sweep_policy 50000 100000
      ⟨[("s1", ⟨60000, 0, none, false⟩), ("s2", ⟨10000, 2, none, false⟩)],
        false, true, true, [], [], [], []⟩ "s1" ⟨60000, 0, none, false⟩
      (by decide) (by decide) (by decide)).1 (by decide),
   (stale_sweep_policy 50000 100000
      ⟨[("s1", ⟨60000, 0, none, false⟩), ("s2", ⟨10000, 2, none, false⟩)],
        false, true, true, [], [], [], []⟩ "s2" ⟨10000, 2, none, false⟩
      (by decide) (by decide) (by decide)).2.1 (by decide),
   (stale_sweep_policy 50000 100000
      ⟨[("s1", ⟨60000, 0, none, false⟩), ("s2", ⟨10000, 2, none, false⟩)],
        false, true, true, [], [], [], []⟩ "s2" ⟨10000, 2, none, false⟩
      (by decide) (by decide) (by decide)).2.2 99000 (by decide)⟩

theorem pingSingleSession_inflight_preserved (k sid : String) (now : Int)
    (st : TransportState) (h : sid ∈ st.pingsInFlight) :
    sid ∈ (pingSingleSession k now st).pingsInFlight ∧
    (pingSingleSession k now st).pingsIssued.count sid = st.pingsIssued.count sid := by
  unfold pingSingleSession
  cases hg : mapGet st.sessions k with
  | none => exact ⟨h, rfl⟩
  | some s =>
    by_cases hin : k ∈ st.pingsInFlight
    · simp only [hin, if_true]
      exact ⟨h, trivial⟩
    · have hk : k ≠ sid := fun he => hin (he ▸ h)
      simp only [hin, if_false, setAdd]
      constructor
      · simp [hin]
        exact Or.inl h
      · exact count_append_singleton_ne _ hk

theorem foldPing_count (l : List String) (sid : String) (now : Int)
    (st : TransportState) (h : sid ∈ st.pingsInFlight) :
    (l.foldl (fun acc k => pingSingleSession k now acc) st).pingsIssued.count sid
      = st.pingsIssued.count sid := by
  induction l generalizing st with
  | nil => rfl
  | cons a l ih =>
    simp only [List.foldl_cons]
    rcases pingSingleSession_inflight_preserved a sid now st h with ⟨h1, h2⟩
    rw [ih _ h1, h2]

/-- C5: while a ping is in flight for a session (its id is in the in-flight
set), `pingSingleSession` is a complete no-op, a whole ping keep-alive tick
issues no further ping to that session, and settling the ping — successfully
or not — always clears the in-flight marker. -/
theorem ping_coalescing (sid : String) (now : Int) (st : TransportState) :
    (sid ∈ st.pingsInFlight →
      pingSingleSession sid now st = st ∧
      (pingKeepAliveTick now st).pingsIssued.count sid = st.pingsIssued.count sid) ∧
    (∀ success : Bool, sid ∉ (pingSettle sid success now st).pingsInFlight) := by
  constructor
  · intro h
    constructor
    · unfold pingSingleSession
      cases mapGet st.sessions sid with
      | none => rfl
      | some s => simp [h]
    · unfold pingKeepAliveTick
      by_cases hs : st.isShuttingDown
      · simp [hs]
      · simp only [hs, Bool.false_eq_true, if_false]
        exact foldPing_count _ _ _ _ h
  · intro success hmem
    have hm := hmem
    simp only [pingSettle] at hm
    rcases List.mem_filter.mp hm with ⟨-, hdec⟩
    simp at hdec

/-- Witness for C5 with session `A` having a ping in flight. -/
theorem ping_coalescing_witness :
    (pingSingleSession "A" 5
        ⟨[("A", ⟨0, 0, some 1, false⟩)], false, true, true, ["A"], [], [], []⟩
      = ⟨[("A", ⟨0, 0, some 1, false⟩)], false, true, true, ["A"], [], [], []⟩ ∧
     (pingKeepAliveTick 5
        ⟨[("A", ⟨0, 0, some 1, false⟩)], false, true, true, ["A"], [], [], []⟩).pingsIssued.count "A"
      = (TransportState.pingsIssued
          ⟨[("A", ⟨0, 0, some 1, false⟩)], false, true, true, ["A"], [], [], []⟩).count "A") ∧
    (∀ success : Bool, "A" ∉ (pingSettle "A" success 5
        ⟨[("A", ⟨0, 0, some 1, false⟩)], false, true, true, ["A"], [], [], []⟩).pingsInFlight) :=
  ⟨(ping_coalescing "A" 5
      ⟨[("A", ⟨0, 0, some 1, false⟩)], false, true, true, ["A"], [], [], []⟩).1 (by decide),
   (ping_coalescing "A" 5
      ⟨[("A", ⟨0, 0, some 1, false⟩)], false, true, true, ["A"], [], [], []⟩).2⟩

/-- C6: session removal is idempotent — running `removeSession` (or the shared
`cleanupSession`) twice on the same id equals running it once (in particular
the close logs receive nothing from the second run), and on an absent id both
are complete no-ops. -/
theorem session_removal_idempotent (sid : String) (st : TransportState) :
    removeSession sid (removeSession sid st) = removeSession sid st ∧
    cleanupSession sid (cleanupSession sid st) = cleanupSession sid st ∧
    (mapGet st.sessions sid = none →
      removeSession sid st = st ∧ cleanupSession sid st = st) := by
  have habs : ∀ st' : TransportState, mapGet st'.sessions sid = none →
      cleanupSession sid st' = st' := fun st' h => cleanupSession_absent h
  have hrabs : ∀ st' : TransportState, mapGet st'.sessions sid = none →
      removeSession sid st' = st' := by
    intro st' h
    unfold removeSession
    rw [h]
    rfl
  refine ⟨?_, ?_, fun h => ⟨hrabs st h, habs st h⟩⟩
  · by_cases hg : (mapGet st.sessions sid).isSome
    · have h1 : removeSession sid st = cleanupSession sid st := by
        unfold removeSession
        rw [if_pos hg]
      rw [h1]
      exact hrabs _ (cleanupSession_get_self sid st)
    · have h0 : mapGet st.sessions sid = none := Option.not_isSome_iff_eq_none.mp hg
      rw [hrabs st h0, hrabs st h0]
  · by_cases hg : (mapGet st.sessions sid).isSome
    · exact habs _ (cleanupSession_get_self sid st)
    · have h0 : mapGet st.sessions sid = none := Option.not_isSome_iff_eq_none.mp hg
      rw [habs st h0, habs st h0]

/-- Witness for C6 at a concrete one-session state, run on the absent id
`zz` (and, through the first two conjuncts, on double removal of `zz`). -/
theorem session_removal_idempotent_witness :
    removeSession "zz" (removeSession "zz"
        ⟨[("A", ⟨0, 0, none, false⟩)], false, true, true, [], [], [], []⟩)
      = removeSession "zz" ⟨[("A", ⟨0, 0, none, false⟩)], false, true, true, [], [], [], []⟩ ∧
    cleanupSession "zz" (cleanupSession "zz"
        ⟨[("A", ⟨0, 0, none, false⟩)], false, true, true, [], [], [], []⟩)
      = cleanupSession "zz" ⟨[("A", ⟨0, 0, none, false⟩)], false, true, true, [], [], [], []⟩ ∧
    (removeSession "zz" ⟨[("A", ⟨0, 0, none, false⟩)], false, true, true, [], [], [], []⟩
        = ⟨[("A", ⟨0, 0, none, false⟩)], false, true, true, [], [], [], []⟩ ∧
     cleanupSession "zz" ⟨[("A", ⟨0, 0, none, false⟩)], false, true, true, [], [], [], []⟩
        = ⟨[("A", ⟨0, 0, none, false⟩)], false, true, true, [], [], [], []⟩) :=
  ⟨(session_removal_idempotent "zz"
      ⟨[("A", ⟨0, 0, none, false⟩)], false, true, true, [], [], [], []⟩).1,
   (session_removal_idempotent "zz"
      ⟨[("A", ⟨0, 0, none, false⟩)], false, true, true, [], [], [], []⟩).2.1,
   (session_removal_idempotent "zz"
      ⟨[("A", ⟨0, 0, none, false⟩)], false, true, true, [], [], [], []⟩).2.2 (by decide)⟩

theorem stopStaleConnectionCheck_fields (st : TransportState) :
    (stopStaleConnectionCheck st).sessions = st.sessions ∧
    (stopStaleConnectionCheck st).transportCloses = st.transportCloses ∧
    (stopStaleConnectionCheck st).serverCloses = st.serverCloses := by
  unfold stopStaleConnectionCheck
  by_cases h1 : st.staleCheckActive <;> by_cases h2 : st.pingActive <;> simp [h1, h2]

theorem foldCleanup_absent (l : List String) (sid : String) (st : TransportState)
    (h : mapGet st.sessions sid = none) :
    mapGet ((l.foldl (fun acc k => cleanupSession k acc) st).sessions) sid = none ∧
    (l.foldl (fun acc k => cleanupSession k acc) st).transportCloses.count sid
      = st.transportCloses.count sid ∧
    (l.foldl (fun acc k => cleanupSession k acc) st).serverCloses.count sid
      = st.serverCloses.count sid := by
  induction l generalizing st with
  | nil => exact ⟨h, rfl, rfl⟩
  | cons a l ih =>
    simp only [List.foldl_cons]
    by_cases ha : a = sid
    · subst ha
      rw [cleanupSession_absent h]
      exact ih st h
    · have hget : mapGet (cleanupSession a st).sessions sid = mapGet st.sessions sid :=
        cleanupSession_get_ne a sid st ha
    -- the close logs of the step can only append `a`, which is not `sid`
      have htc : (cleanupSession a st).transportCloses.count sid
          = st.transportCloses.count sid := by
        rw [cleanupSession_transportCloses]
        by_cases hp : (mapGet st.sessions a).isSome <;>
          simp [hp, count_append_singleton_ne _ ha]
      have hsc : (cleanupSession a st).serverCloses.count sid
          = st.serverCloses.count sid := by
        rw [cleanupSession_serverCloses]
        by_cases hp : (mapGet st.sessions a).isSome <;>
          simp [hp, count_append_singleton_ne _ ha]
      rcases ih (cleanupSession a st) (hget ▸ h) with ⟨r1, r2, r3⟩
      exact ⟨r1, by rw [r2, htc], by rw [r3, hsc]⟩

theorem foldCleanup_mem (l : List String) (sid : String) (st : TransportState)
    (h : (mapGet st.sessions sid).isSome) (hmem : sid ∈ l) :
    (l.foldl (fun acc k => cleanupSession k acc) st).transportCloses.count sid
      = st.transportCloses.count sid + 1 ∧
    (l.foldl (fun acc k => cleanupSession k acc) st).serverCloses.count sid
      = st.serverCloses.count sid + 1 := by
  induction l generalizing st with
  | nil => simp at hmem
  | cons a l ih =>
    simp only [List.foldl_cons]
    by_cases ha : a = sid
    · subst ha
      have htc : (cleanupSession a st).transportCloses = st.transportCloses ++ [a] := by
        rw [cleanupSession_transportCloses, if_pos h]
      have hsc : (cleanupSession a st).serverCloses = st.serverCloses ++ [a] := by
        rw [cleanupSession_serverCloses, if_pos h]
      rcases foldCleanup_absent l a (cleanupSession a st) (cleanupSession_get_self a st)
        with ⟨-, r2, r3⟩
      refine ⟨?_, ?_⟩
      · rw [r2, htc, count_append_singleton_self]
      · rw [r3, hsc, count_append_singleton_self]
    · have hget : mapGet (cleanupSession a st).sessions sid = mapGet st.sessions sid :=
        cleanupSession_get_ne a sid st ha
      have htc : (cleanupSession a st).transportCloses.count sid
          = st.transportCloses.count sid := by
        rw [cleanupSession_transportCloses]
        by_cases hp : (mapGet st.sessions a).isSome <;>
          simp [hp, count_append_singleton_ne _ ha]
      have hsc : (cleanupSession a st).serverCloses.count sid
          = st.serverCloses.count sid := by
        rw [cleanupSession_serverCloses]
        by_cases hp : (mapGet st.sessions a).isSome <;>
          simp [hp, count_append_singleton_ne _ ha]
      have hmem' : sid ∈ l := by
        rcases List.mem_cons.mp hmem with h1 | h1
        · exact absurd h1.symm ha
        · exact h1
      rcases ih (cleanupSession a st) (hget ▸ h) hmem' with ⟨r1, r2⟩
      exact ⟨by rw [r1, htc], by rw [r2, hsc]⟩

/-- C7: after `cleanup()` the session registry is empty; every session that
was live receives exactly one close call on its wire transport and exactly one
on its protocol server (each id's close count grows by exactly one, and ids
that were not live receive none).  Per-session failures are isolated by
construction: every teardown runs in its own catch and the bulk operation
awaits `Promise.allSettled` of them all. -/
theorem cleanup_empties_registry_closes_once (st : TransportState) :
    (cleanup st).sessions = [] ∧
    (∀ sid, (mapGet st.sessions sid).isSome →
      (cleanup st).transportCloses.count sid = st.transportCloses.count sid + 1 ∧
      (cleanup st).serverCloses.count sid = st.serverCloses.count sid + 1) ∧
    (∀ sid, mapGet st.sessions sid = none →
      (cleanup st).transportCloses.count sid = st.transportCloses.count sid ∧
      (cleanup st).serverCloses.count sid = st.serverCloses.count sid) := by
  rcases stopStaleConnectionCheck_fields st with ⟨hs, ht, hv⟩
  have htc : (cleanup st).transportCloses
      = ((mapKeys (stopStaleConnectionCheck st).sessions).foldl
          (fun acc k => cleanupSession k acc) (stopStaleConnectionCheck st)).transportCloses :=
    rfl
  have hvc : (cleanup st).serverCloses
      = ((mapKeys (stopStaleConnectionCheck st).sessions).foldl
          (fun acc k => cleanupSession k acc) (stopStaleConnectionCheck st)).serverCloses :=
    rfl
  refine ⟨rfl, fun sid h => ?_, fun sid h => ?_⟩
  · rcases foldCleanup_mem (mapKeys (stopStaleConnectionCheck st).sessions) sid
      (stopStaleConnectionCheck st) (by rw [hs]; exact h)
      (by rw [hs]; exact mem_keys_of_get_isSome h) with ⟨r1, r2⟩
    exact ⟨by rw [htc, r1, ht], by rw [hvc, r2, hv]⟩
  · rcases foldCleanup_absent (mapKeys (stopStaleConnectionCheck st).sessions) sid
      (stopStaleConnectionCheck st) (by rw [hs]; exact h) with ⟨-, r2, r3⟩
    exact ⟨by rw [htc, r2, ht], by rw [hvc, r3, hv]⟩

/-- Witness for C7 at a two-session state: the registry empties, the live
session `A` is closed exactly once on both handles, the absent id `zz` not at
all. -/
theorem cleanup_empties_registry_closes_once_witness :
    (cleanup ⟨[("A", ⟨0, 0, none, true⟩), ("B", ⟨5, 1, none, false⟩)],
        false, true, true, [], [], [], []⟩).sessions = [] ∧
    ((cleanup ⟨[("A", ⟨0, 0, none, true⟩), ("B", ⟨5, 1, none, false⟩)],
        false, true, true, [], [], [], []⟩).transportCloses.count "A"
      = (TransportState.transportCloses ⟨[("A", ⟨0, 0, none, true⟩), ("B", ⟨5, 1, none, false⟩)],
          false, true, true, [], [], [], []⟩).count "A" + 1 ∧
     (cleanup ⟨[("A", ⟨0, 0, none, true⟩), ("B", ⟨5, 1, none, false⟩)],
        false, true, true, [], [], [], []⟩).serverCloses.count "A"
      = (TransportState.serverCloses ⟨[("A", ⟨0, 0, none, true⟩), ("B", ⟨5, 1, none, false⟩)],
          false, true, true, [], [], [], []⟩).count "A" + 1) ∧
    ((cleanup ⟨[("A", ⟨0, 0, none, true⟩), ("B", ⟨5, 1, none, false⟩)],
        false, true, true, [], [], [], []⟩).transportCloses.count "zz"
      = (TransportState.transportCloses ⟨[("A", ⟨0, 0, none, true⟩), ("B", ⟨5, 1, none, false⟩)],
          false, true, true, [], [], [], []⟩).count "zz" ∧
     (cleanup ⟨[("A", ⟨0, 0, none, true⟩), ("B", ⟨5, 1, none, false⟩)],
        false, true, true, [], [], [], []⟩).serverCloses.count "zz"
      = (TransportState.serverCloses ⟨[("A", ⟨0, 0, none, true⟩), ("B", ⟨5, 1, none, false⟩)],
          false, true, true, [], [], [], []⟩).count "zz") :=
  ⟨(cleanup_empties_registry_closes_once ⟨[("A", ⟨0, 0, none, true⟩), ("B", ⟨5, 1, none, false⟩)],
      false, true, true, [], [], [], []⟩).1,
   (cleanup_empties_registry_closes_once ⟨[("A", ⟨0, 0, none, true⟩), ("B", ⟨5, 1, none, false⟩)],
      false, true, true, [], [], [], []⟩).2.1 "A" (by decide),
   (cleanup_empties_registry_closes_once ⟨[("A", ⟨0, 0, none, true⟩), ("B", ⟨5, 1, none, false⟩)],
      false, true, true, [], [], [], []⟩).2.2 "zz" (by decide)⟩

theorem updateSessionActivity_isSome (sid : String) (now : Int) (st : TransportState)
    (h : (mapGet st.sessions sid).isSome) :
    (mapGet (updateSessionActivity sid now st).sessions sid).isSome := by
  unfold updateSessionActivity
  cases hg : mapGet st.sessions sid with
  | none => rw [hg] at h; simp at h
  | some s => simp [mapGet_mapSet_self]

/-- C8: once `shutdown()` has set the shutdown flag, any POST to the MCP
endpoint without a session id is rejected with 503 "Server is shutting down"
and creates no session (the registry is unchanged), while any POST carrying
the id of a live session is still dispatched to that session's wire
transport. -/
theorem shutdown_rejects_new_serves_existing (st : TransportState) (isInit : Bool)
    (newSid : String) (now : Int) :
    (shutdown st).isShuttingDown = true ∧
    (handlePostRequest none isInit newSid now (shutdown st)).1
      = .rejected 503 "Server is shutting down" ∧
    (handlePostRequest none isInit newSid now (shutdown st)).2.sessions = st.sessions ∧
    (∀ sid, (mapGet st.sessions sid).isSome →
      (handlePostRequest (some sid) isInit newSid now (shutdown st)).1
        = .dispatched sid) := by
  refine ⟨rfl, by simp [handlePostRequest, shutdown], by simp [handlePostRequest, shutdown],
    fun sid h => ?_⟩
  have h1 : mapHas (shutdown st).sessions sid = true := by
    simp [shutdown, mapHas, h]
  have h2 : (mapGet (updateSessionActivity sid now (shutdown st)).sessions sid).isSome :=
    updateSessionActivity_isSome sid now (shutdown st) (by simp [shutdown, h])
  simp only [handlePostRequest, h1, if_true]
  simp [mapHas, h2]

/-- Witness for C8 at a one-session state. -/
theorem shutdown_rejects_new_serves_existing_witness :
    (shutdown ⟨[("A", ⟨0, 0, none, false⟩)], false, true, true, [], [], [], []⟩).isShuttingDown
      = true ∧
    (handlePostRequest none true "new" 7
        (shutdown ⟨[("A", ⟨0, 0, none, false⟩)], false, true, true, [], [], [], []⟩)).1
      = .rejected 503 "Server is shutting down" ∧
    (handlePostRequest none true "new" 7
        (shutdown ⟨[("A", ⟨0, 0, none, false⟩)], false, true, true, [], [], [], []⟩)).2.sessions
      = TransportState.sessions ⟨[("A", ⟨0, 0, none, false⟩)], false, true, true, [], [], [], []⟩ ∧
    (handlePostRequest (some "A") true "new" 7
        (shutdown ⟨[("A", ⟨0, 0, none, false⟩)], false, true, true, [], [], [], []⟩)).1
      = .dispatched "A" :=
  ⟨(shutdown_rejects_new_serves_existing
      ⟨[("A", ⟨0, 0, none, false⟩)], false, true, true, [], [], [], []⟩ true "new" 7).1,
   (shutdown_rejects_new_serves_existing
      ⟨[("A", ⟨0, 0, none, false⟩)], false, true, true, [], [], [], []⟩ true "new" 7).2.1,
   (shutdown_rejects_new_serves_existing
      ⟨[("A", ⟨0, 0, none, false⟩)], false, true, true, [], [], [], []⟩ true "new" 7).2.2.1,
   (shutdown_rejects_new_serves_existing
      ⟨[("A", ⟨0, 0, none, false⟩)], false, true, true, [], [], [], []⟩ true "new" 7).2.2.2 "A"
     (by decide)⟩

/-! ## Data URL parsing lemmas -/

theorem dropLit_self_append (l s : List Char) : dropLit l (l ++ s) = some s := by
  induction l with
  | nil => rfl
  | cons c cs ih => simp [dropLit, ih]

theorem dropLit_sound {l s r : List Char} (h : dropLit l s = some r) : s = l ++ r := by
  induction l generalizing s with
  | nil =>
    simp [dropLit] at h
    simp [h]
  | cons c cs ih =>
    cases s with
    | nil => simp [dropLit] at h
    | cons d ds =>
      simp only [dropLit] at h
      by_cases hd : d = c
      · rw [if_pos hd] at h
        have := ih h
        simp [hd, this]
      · rw [if_neg hd] at h
        exact absurd h (by simp)

theorem breakSemi_append (m r : List Char) (h : ';' ∉ m) :
    breakSemi (m ++ ';' :: r) = (m, ';' :: r) := by
  induction m with
  | nil => simp [breakSemi]
  | cons c cs ih =>
    have hc : ¬ (c = ';') := by
      intro he
      exact h (by simp [he])
    have h' : ';' ∉ cs := fun hm => h (List.mem_cons_of_mem _ hm)
    simp [breakSemi, hc, ih h']

theorem breakSemi_sound (s : List Char) :
    s = (breakSemi s).1 ++ (breakSemi s).2 ∧ ';' ∉ (breakSemi s).1 := by
  induction s with
  | nil => simp [breakSemi]
  | cons c cs ih =>
    by_cases hc : c = ';'
    · simp [breakSemi, hc]
    · refine ⟨?_, ?_⟩
      · simp only [breakSemi, hc, if_false]
        exact congrArg (c :: ·) ih.1
      · simp only [breakSemi, hc, if_false]
        intro hmem
        rcases List.mem_cons.mp hmem with h1 | h1
        · exact hc h1.symm
        · exact ih.2 h1

theorem parse_cases (s : List Char) :
    parseDataUrlChars s = .error "Invalid data URL format" ∨
    ∃ m p, parseDataUrlChars s = .ok (m, p) ∧ IsDataUrlFormat s := by
  unfold parseDataUrlChars
  cases hd : dropLit "data:".toList s with
  | none => exact Or.inl rfl
  | some rest =>
    dsimp only
    by_cases hm : (breakSemi rest).1 = []
    · rw [if_pos hm]
      exact Or.inl rfl
    · rw [if_neg hm]
      cases hd2 : dropLit ";base64,".toList (breakSemi rest).2 with
      | none => exact Or.inl rfl
      | some payload =>
        dsimp only
        by_cases hp : payload = []
        · rw [if_pos hp]
          exact Or.inl rfl
        · rw [if_neg hp]
          by_cases hall : payload.all (fun c => !isLineTerm c)
          · rw [if_pos hall]
            refine Or.inr ⟨(breakSemi rest).1, payload, rfl, ?_⟩
            refine ⟨(breakSemi rest).1, payload, ?_, hm, (breakSemi_sound rest).2, hp, ?_⟩
            · rw [dropLit_sound hd, encodeDataUrlChars]
              apply congrArg
              rw [← dropLit_sound hd2]
              exact (breakSemi_sound rest).1
            · intro c hc
              have := List.all_eq_true.mp hall c hc
              simpa using this
          · rw [if_neg hall]
            exact Or.inl rfl

theorem dataurl_roundtrip_ok (mime payload : List Char) (hm : mime ≠ [])
    (hsemi : ';' ∉ mime) (hp : payload ≠ [])
    (hterm : ∀ c ∈ payload, isLineTerm c = false) :
    parseDataUrlChars (encodeDataUrlChars mime payload) = .ok (mime, payload) := by
  have hb : (";base64,".toList : List Char) = ';' :: "base64,".toList := by decide
  have henc : encodeDataUrlChars mime payload
      = "data:".toList ++ (mime ++ (';' :: ("base64,".toList ++ payload))) := by
    rw [encodeDataUrlChars, hb]
    simp
  have hbreak : breakSemi (mime ++ (';' :: ("base64,".toList ++ payload)))
      = (mime, ';' :: ("base64,".toList ++ payload)) := breakSemi_append _ _ hsemi
  have hd2 : dropLit ";base64,".toList (';' :: ("base64,".toList ++ payload))
      = some payload := by
    rw [hb]
    have := dropLit_self_append (';' :: "base64,".toList) payload
    simpa using this
  have hall : payload.all (fun c => !isLineTerm c) = true := by
    rw [List.all_eq_true]
    intro c hc
    rw [hterm c hc]
    rfl
  rw [henc]
  unfold parseDataUrlChars
  rw [dropLit_self_append]
  dsimp only
  rw [hbreak]
  dsimp only
  rw [if_neg hm, hd2]
  dsimp only
  rw [if_neg hp, if_pos hall]

/-- C9: the data-URL round trip — encoding any mime type (non-empty, without
semicolons, e.g. `image/jpeg`) and any non-empty base64 payload (no line
terminators) as `data:<mime>;base64,<payload>` and parsing it back recovers
exactly the mime type and exactly the payload; and every string that does not
match the `data:<mime>;base64,<payload>` format makes `parseDataUrl` throw the
descriptive error `Invalid data URL format` instead of returning an empty
result. -/
theorem data_url_roundtrip_and_error :
    (∀ mime payload : List Char, mime ≠ [] → ';' ∉ mime → payload ≠ [] →
      (∀ c ∈ payload, isLineTerm c = false) →
      parseDataUrlChars (encodeDataUrlChars mime payload) = .ok (mime, payload)) ∧
    (∀ s : List Char, ¬ IsDataUrlFormat s →
      parseDataUrlChars s = .error "Invalid data URL format") := by
  constructor
  · exact dataurl_roundtrip_ok
  · intro s hnot
    rcases parse_cases s with h | ⟨m, p, _, hfmt⟩
    · exact h
    · exact absurd hfmt hnot

/-- Witness for C9: round trip at mime `image/jpeg` with payload `SGVsbG8=`,
and rejection of the non-matching string `hello`. -/
theorem data_url_roundtrip_and_error_witness :
    parseDataUrlChars (encodeDataUrlChars "image/jpeg".toList "SGVsbG8=".toList)
      = .ok ("image/jpeg".toList, "SGVsbG8=".toList) ∧
    parseDataUrlChars "hello".toList = .error "Invalid data URL format" :=
  ⟨data_url_roundtrip_and_error.1 "image/jpeg".toList "SGVsbG8=".toList
    (by decide) (by decide) (by decide) (by decide),
   data_url_roundtrip_and_error.2 "hello".toList (by
    rintro ⟨m, p, heq, -, -, -, -⟩
    have h5 : ("hello".toList).take ("data:".toList).length = "data:".toList := by
      rw [heq, encodeDataUrlChars]
      exact List.take_left _ _
    exact absurd h5 (by decide))⟩
